import Mathlib

/-!
Webhook handlers of `proxyservice/handlers.go`

A shallow embedding of the two HTTP handlers of the deployment proxy,
`DockerHubWebhookHandler.ServeHTTP` and `GcrWebhookHandler.ServeHTTP`, together with
`NewDockerHubWebhookHandler` and `isValidNamespace`.

The handlers are sequential code with early returns.  They are embedded as functions on an
explicit state that carries

* the external world (network, Jenkins, the request body stream), on which the collaborators
  of the handlers act;
* the `http.ResponseWriter` the handler writes to;
* the trace of the calls the handler made, with what each call returned.

The functions the handlers call but which are defined in other files of the package (the
payload parsers, `Callback`, `rawJSON`, the GCR accessors, `TriggerJenkinsJob`) are fields of
`Collaborators`: every theorem holds for every behaviour of them.  Only the two round trips
say what one of them does where the handler file cannot: that `rawJSON` returns the body of
the request, as `originalPayload` has it from the spec.
-/

namespace ProxyService

/-! ## Go values -/

/-- A byte slice `[]byte`, one number below 256 for each byte. -/
abbrev Bytes := List Nat

/-- A non-nil Go `error`, identified by the text of its `Error()` method.  A value of the
interface type `error` is an `Option GoError`, `none` being `nil`. -/
structure GoError where
  msg : String
deriving DecidableEq, Repr

/-- A Go `map[string]β`, as an association list holding each key at most once. -/
abbrev GoMap (β : Type) := List (String × β)

/-- The map `make(map[string]β)`. -/
def GoMap.make {β : Type} : GoMap β := []

/-- The assignment `m[k] = v`. -/
def GoMap.set {β : Type} (m : GoMap β) (k : String) (v : β) : GoMap β :=
  (k, v) :: m.filter (fun kv => kv.1 != k)

/-- The index expression `m[k]`, which is the zero value of `β` when `k` is not a key. -/
def GoMap.index {β : Type} (zero : β) (m : GoMap β) (k : String) : β :=
  (m.lookup k).getD zero

/-! ## `net/http` -/

@[simp]
def StatusOK : Nat := 200
@[simp]
def StatusBadRequest : Nat := 400
@[simp]
def StatusUnauthorized : Nat := 401
@[simp]
def StatusInternalServerError : Nat := 500

/-- The type `url.Values`, a `map[string][]string`. -/
abbrev Values := GoMap (List String)

/-- The method `url.Values.Get`: the first value associated with the key, and the empty string
when there is none. -/
def Values.Get (v : Values) (key : String) : String :=
  match GoMap.index [] v key with
  | [] => ""
  | x :: _ => x

/-- Whether the key is set, as in `_, ok := v[key]`. -/
def Values.Has (v : Values) (key : String) : Bool :=
  (v.lookup key).isSome

/-- The parts of `*http.Request` the handlers read.  `URLQuery` is the value of
`req.URL.Query()`. -/
structure Request where
  Method : String
  RemoteAddr : String
  URLQuery : Values
  Body : Bytes
deriving DecidableEq, Repr

/-- An `http.ResponseWriter`: the status code once the header is written, and the body
written so far.  Response headers are not modelled. -/
structure ResponseWriter where
  code : Option Nat
  body : String
deriving DecidableEq, Repr

/-- The writer the server hands to a handler. -/
@[simp]
def ResponseWriter.fresh : ResponseWriter := { code := none, body := "" }

/-- The method `WriteHeader`: only the first call sets the status code. -/
@[simp]
def ResponseWriter.WriteHeader (w : ResponseWriter) (statusCode : Nat) : ResponseWriter :=
  match w.code with
  | some _ => w
  | none => { w with code := some statusCode }

/-- The method `Write`: writes the header with status 200 if it is not written yet, then
appends to the body. -/
@[simp]
def ResponseWriter.Write (w : ResponseWriter) (b : String) : ResponseWriter :=
  let w1 := w.WriteHeader StatusOK
  { w1 with body := w1.body ++ b }

/-- The status code the client receives: 200 when the handler never wrote a header. -/
@[simp]
def ResponseWriter.status (w : ResponseWriter) : Nat :=
  w.code.getD StatusOK

/-- The function `http.Error(w, error, code)`: writes the header with `code`, then the text
and a newline. -/
@[simp]
def httpError (w : ResponseWriter) (error : String) (code : Nat) : ResponseWriter :=
  (w.WriteHeader code).Write (error ++ "\n")

/-! ## Payload types -/

/-- Modelled from the spec: the declaration of the `Repository` field of
`DockerHubWebhookData` is not in `handlers.go`; the handler reads `Name` and `Namespace`. -/
structure DockerHubRepository where
  Name : String
  Namespace : String
deriving DecidableEq, Repr

/-- Modelled from the spec: the declaration of the `PushData` field of `DockerHubWebhookData`
is not in `handlers.go`; the handler reads `Tag`. -/
structure DockerHubPushData where
  Tag : String
deriving DecidableEq, Repr

/-- Modelled from the spec: the declaration of `DockerHubWebhookData` is not in
`handlers.go`; the spec gives it as `{repository: {name, namespace}, pushData: {tag},
callbackURL}`. -/
structure DockerHubWebhookData where
  CallbackURL : String
  PushData : DockerHubPushData
  Repository : DockerHubRepository
deriving DecidableEq, Repr

/-- Modelled from the spec: the method `rawJSON` of the two payload types is not in
`handlers.go`.  By the spec the trigger is given "the original raw bytes" of the request, "the
full original payload": the bytes that `rawJSON()` returns for the payload decoded from `req`
are the body of `req`. -/
def originalPayload (req : Request) : Bytes :=
  req.Body

/-! ## Collaborators -/

/-- The functions and types `handlers.go` uses from the other files of the package.  Those
that may touch the outside (request body, network, Jenkins) take the world and return it. -/
structure Collaborators where
  World : Type
  Jenkins : Type
  CallbackData : Type
  GcrWebhookData : Type
  NewDockerHubWebhookDataFromRequest :
    Request → World → Except GoError DockerHubWebhookData × World
  NewSuccessCallbackData : CallbackData
  Callback : DockerHubWebhookData → CallbackData → World → Option GoError × World
  dockerHubRawJSON : DockerHubWebhookData → World → Except GoError Bytes × World
  NewGcrWebhookDataFromRequest : Request → World → Except GoError GcrWebhookData × World
  isValid : GcrWebhookData → Bool
  gcrRawJSON : GcrWebhookData → World → Except GoError Bytes × World
  getRepositoryName : GcrWebhookData → String
  getRepositoryDomain : GcrWebhookData → String
  getImageTagOrDigest : GcrWebhookData → String
  TriggerJenkinsJob :
    Jenkins → String → String → String → String → Bytes → World → Option GoError × World

/-- A call made by a handler, with the error it returned (`none` is `nil`). -/
inductive Event where
  | Printf (format : String) (args : List String)
  | NewDockerHubWebhookDataFromRequest (err : Option GoError)
  | Callback (hookData : DockerHubWebhookData) (err : Option GoError)
  | NewGcrWebhookDataFromRequest (err : Option GoError)
  | rawJSON (err : Option GoError)
  | TriggerJenkinsJob (provider repositoryName repositoryScope tagOrDigest : String)
      (rawJSON : Bytes) (err : Option GoError)
deriving DecidableEq, Repr

/-- Whether the event is a call of `TriggerJenkinsJob`. -/
@[simp]
def Event.isTrigger : Event → Bool
  | Event.TriggerJenkinsJob _ _ _ _ _ _ => true
  | _ => false

/-- The calls of `TriggerJenkinsJob` in a trace, in order. -/
@[simp]
def triggerCalls (t : List Event) : List Event :=
  t.filter Event.isTrigger

/-- The error of an `Except`, as a Go `error` value. -/
@[simp]
def errOf {α : Type} : Except GoError α → Option GoError
  | Except.error e => some e
  | Except.ok _ => none

/-- What a handler acts on: the world, the response writer and the calls made so far. -/
structure State (D : Collaborators) where
  world : D.World
  w : ResponseWriter
  trace : List Event

/-- The state in which the server calls a handler. -/
@[simp]
def State.start (D : Collaborators) (world : D.World) : State D :=
  { world := world, w := ResponseWriter.fresh, trace := [] }

/-- The call `log.Printf(format, args...)`. -/
@[simp]
def State.Printf {D : Collaborators} (st : State D) (format : String) (args : List String) :
    State D :=
  { st with trace := st.trace ++ [Event.Printf format args] }

/-- The call `http.Error(w, error, code)`. -/
@[simp]
def State.Error {D : Collaborators} (st : State D) (error : String) (code : Nat) : State D :=
  { st with w := httpError st.w error code }

/-- The call `w.Write(b)`. -/
@[simp]
def State.Write {D : Collaborators} (st : State D) (b : String) : State D :=
  { st with w := st.w.Write b }

/-- The call `NewDockerHubWebhookDataFromRequest(req)`. -/
@[simp]
def State.NewDockerHubWebhookDataFromRequest {D : Collaborators} (st : State D)
    (req : Request) : Except GoError DockerHubWebhookData × State D :=
  let r := D.NewDockerHubWebhookDataFromRequest req st.world
  (r.1, { st with world := r.2,
                  trace := st.trace ++ [Event.NewDockerHubWebhookDataFromRequest (errOf r.1)] })

/-- The call `hookData.Callback(data)`. -/
@[simp]
def State.Callback {D : Collaborators} (st : State D) (hookData : DockerHubWebhookData)
    (data : D.CallbackData) : Option GoError × State D :=
  let r := D.Callback hookData data st.world
  (r.1, { st with world := r.2, trace := st.trace ++ [Event.Callback hookData r.1] })

/-- The call `hookData.rawJSON()` on a DockerHub payload. -/
@[simp]
def State.dockerHubRawJSON {D : Collaborators} (st : State D)
    (hookData : DockerHubWebhookData) : Except GoError Bytes × State D :=
  let r := D.dockerHubRawJSON hookData st.world
  (r.1, { st with world := r.2, trace := st.trace ++ [Event.rawJSON (errOf r.1)] })

/-- The call `NewGcrWebhookDataFromRequest(req)`. -/
@[simp]
def State.NewGcrWebhookDataFromRequest {D : Collaborators} (st : State D) (req : Request) :
    Except GoError D.GcrWebhookData × State D :=
  let r := D.NewGcrWebhookDataFromRequest req st.world
  (r.1, { st with world := r.2,
                  trace := st.trace ++ [Event.NewGcrWebhookDataFromRequest (errOf r.1)] })

/-- The call `hookData.rawJSON()` on a GCR payload. -/
@[simp]
def State.gcrRawJSON {D : Collaborators} (st : State D) (hookData : D.GcrWebhookData) :
    Except GoError Bytes × State D :=
  let r := D.gcrRawJSON hookData st.world
  (r.1, { st with world := r.2, trace := st.trace ++ [Event.rawJSON (errOf r.1)] })

/-- The call `jenkins.TriggerJenkinsJob(provider, repositoryName, repositoryScope,
tagOrDigest, rawJSON)`. -/
@[simp]
def State.TriggerJenkinsJob {D : Collaborators} (st : State D) (jenkins : D.Jenkins)
    (provider repositoryName repositoryScope tagOrDigest : String) (rawJSON : Bytes) :
    Option GoError × State D :=
  let r := D.TriggerJenkinsJob jenkins provider repositoryName repositoryScope tagOrDigest
    rawJSON st.world
  (r.1, { st with world := r.2,
                  trace := st.trace ++ [Event.TriggerJenkinsJob provider repositoryName
                    repositoryScope tagOrDigest rawJSON r.1] })

/-! ## The DockerHub handler -/

/-- The struct `DockerHubWebhookHandler`. -/
structure DockerHubWebhookHandler (D : Collaborators) where
  Jenkins : D.Jenkins
  ValidNameSpaces : GoMap Bool

/-- The function `NewDockerHubWebhookHandler(jenkins, nameSpaces...)`. -/
def NewDockerHubWebhookHandler (D : Collaborators) (jenkins : D.Jenkins)
    (nameSpaces : List String) : DockerHubWebhookHandler D :=
  let validNameSpaces : GoMap Bool :=
    nameSpaces.foldl (fun m nameSpace => GoMap.set m nameSpace true) GoMap.make
  { Jenkins := jenkins, ValidNameSpaces := validNameSpaces }

/-- The method `isValidNamespace`. -/
def DockerHubWebhookHandler.isValidNamespace {D : Collaborators}
    (d : DockerHubWebhookHandler D) (nameSpace : String) : Bool :=
  GoMap.index false d.ValidNameSpaces nameSpace

/-- The method `DockerHubWebhookHandler.ServeHTTP`. -/
def DockerHubWebhookHandler.ServeHTTP {D : Collaborators} (d : DockerHubWebhookHandler D)
    (req : Request) (st : State D) : State D :=
  if req.Method ≠ "POST" then
    st.Error "Bad Request" StatusBadRequest
  else
    let st := st.Printf "Received dockerhub request from: %s" [req.RemoteAddr]
    match st.NewDockerHubWebhookDataFromRequest req with
    | (Except.error err, st) =>
      let st := st.Printf "Error parsing request: %v" [err.msg]
      st.Error "Internal Service Error" StatusInternalServerError
    | (Except.ok hookData, st) =>
      if !d.isValidNamespace hookData.Repository.Namespace then
        let st := st.Printf "Invalid Namespace: %s" [hookData.Repository.Namespace]
        st.Error "Invalid Namespace" StatusUnauthorized
      else
        match st.Callback hookData D.NewSuccessCallbackData with
        | (some err, st) =>
          let st := st.Printf "Callback error: %v" [err.msg]
          st.Error "Request could not be validated" StatusUnauthorized
        | (none, st) =>
          match st.dockerHubRawJSON hookData with
          | (Except.error err, st) =>
            let st := st.Printf err.msg []
            st.Error "Internal Service Error" StatusInternalServerError
          | (Except.ok rawJSON, st) =>
            match st.TriggerJenkinsJob d.Jenkins "dockerhub" hookData.Repository.Name
                hookData.Repository.Namespace hookData.PushData.Tag rawJSON with
            | (some err, st) =>
              let st := st.Printf "Error triggering jenkins: %v" [err.msg]
              st.Error "Internal Service Error" StatusInternalServerError
            | (none, st) =>
              st.Write "OK"

/-! ## The GCR handler -/

/-- The struct `GcrWebhookHandler`. -/
structure GcrWebhookHandler (D : Collaborators) where
  Jenkins : D.Jenkins
  PubSubSecret : String

/-- The method `GcrWebhookHandler.ServeHTTP`. -/
def GcrWebhookHandler.ServeHTTP {D : Collaborators} (d : GcrWebhookHandler D)
    (req : Request) (st : State D) : State D :=
  if req.Method ≠ "POST" then
    st.Error "Bad Request" StatusBadRequest
  else
    let queryParams := req.URLQuery
    if Values.Get queryParams "secret" ≠ d.PubSubSecret then
      let st := st.Printf "Received request with invalid secret" []
      st.Error "Unauthorized" StatusUnauthorized
    else
      match st.NewGcrWebhookDataFromRequest req with
      | (Except.error err, st) =>
        let st := st.Printf "Error parsing request: %v" [err.msg]
        st.Error "Internal Service Error" StatusInternalServerError
      | (Except.ok hookData, st) =>
        if !D.isValid hookData then
          let st := st.Printf "Received invalid request: %v" ["<nil>"]
          st.Error "Internal Service Error" StatusInternalServerError
        else
          match st.gcrRawJSON hookData with
          | (Except.error err, st) =>
            let st := st.Printf err.msg []
            st.Error "Internal Service Error" StatusInternalServerError
          | (Except.ok rawJSON, st) =>
            match st.TriggerJenkinsJob d.Jenkins "gcr" (D.getRepositoryName hookData)
                (D.getRepositoryDomain hookData) (D.getImageTagOrDigest hookData) rawJSON with
            | (some err, st) =>
              let st := st.Printf "Error triggering jenkins: %v" [err.msg]
              st.Error "Internal Service Error" StatusInternalServerError
            | (none, st) =>
              st.Write "OK"

/-! ## Scripted collaborators

Collaborators whose answers are fixed in advance, to run the handlers on concrete requests.
The world counts the calls made to the outside. -/

/-- A decoded GCR payload for the scripted collaborators. -/
structure ScriptedGcrData where
  valid : Bool
  repositoryName : String
  repositoryDomain : String
  imageTagOrDigest : String
deriving DecidableEq, Repr

/-- Collaborators that answer with the given results, whatever they are called with. -/
def scripted (dockerHubData : Except GoError DockerHubWebhookData)
    (gcrData : Except GoError ScriptedGcrData) (callback : Option GoError)
    (raw : Except GoError Bytes) (trigger : Option GoError) : Collaborators :=
  { World := Nat
    Jenkins := Unit
    CallbackData := String
    GcrWebhookData := ScriptedGcrData
    NewDockerHubWebhookDataFromRequest := fun _ n => (dockerHubData, n + 1)
    NewSuccessCallbackData := "success"
    Callback := fun _ _ n => (callback, n + 1)
    dockerHubRawJSON := fun _ n => (raw, n)
    NewGcrWebhookDataFromRequest := fun _ n => (gcrData, n + 1)
    isValid := fun g => g.valid
    gcrRawJSON := fun _ n => (raw, n)
    getRepositoryName := fun g => g.repositoryName
    getRepositoryDomain := fun g => g.repositoryDomain
    getImageTagOrDigest := fun g => g.imageTagOrDigest
    TriggerJenkinsJob := fun _ _ _ _ _ _ n => (trigger, n + 1) }

/-- The DockerHub payload of the round trip of the spec. -/
def acmePayload : DockerHubWebhookData :=
  { CallbackURL := "https://registry.hub.docker.com/u/acme/myapp/hook/1/"
    PushData := { Tag := "v1.2.3" }
    Repository := { Name := "myapp", Namespace := "acme" } }

/-- The GCR payload of the round trip of the spec. -/
def gcrPayload : ScriptedGcrData :=
  { valid := true
    repositoryName := "my-image"
    repositoryDomain := "gcr.io/my-project"
    imageTagOrDigest := "latest" }

/-- The body of the sample requests, the bytes of `{}`.  The scripted parsers answer without
reading it, and the scripted `rawJSON` returns it where it succeeds. -/
def sampleBody : Bytes := [123, 125]

/-- Collaborators that all succeed. -/
def allSucceed : Collaborators :=
  scripted (Except.ok acmePayload) (Except.ok gcrPayload) none (Except.ok sampleBody) none

/-- Collaborators of which only `TriggerJenkinsJob` fails. -/
def triggerFails : Collaborators :=
  scripted (Except.ok acmePayload) (Except.ok gcrPayload) none (Except.ok sampleBody)
    (some { msg := "jenkins unreachable" })

/-- Collaborators of which only `rawJSON` fails. -/
def rawJSONFails : Collaborators :=
  scripted (Except.ok acmePayload) (Except.ok gcrPayload) none
    (Except.error { msg := "json: unsupported value" }) none

/-- Collaborators of which only the callback fails. -/
def callbackFails : Collaborators :=
  scripted (Except.ok acmePayload) (Except.ok gcrPayload)
    (some { msg := "callback returned 404" }) (Except.ok sampleBody) none

/-- Collaborators whose parsers reject the body. -/
def parseFails : Collaborators :=
  scripted (Except.error { msg := "unexpected end of JSON input" })
    (Except.error { msg := "unexpected end of JSON input" }) none (Except.ok sampleBody) none

/-- A POST request with the given query parameters and body. -/
def postRequest (query : Values) (body : Bytes) : Request :=
  { Method := "POST", RemoteAddr := "203.0.113.7:40000", URLQuery := query, Body := body }

/-! ## Lemmas on maps -/

theorem GoMap.index_set {β : Type} (zero : β) (m : GoMap β) (k : String) (v : β) (s : String) :
    GoMap.index zero (GoMap.set m k v) s = if s = k then v else GoMap.index zero m s := by
  unfold GoMap.index GoMap.set
  by_cases h : s = k
  · subst h
    simp [List.lookup]
  · have hb : (s == k) = false := by simpa using h
    simp only [List.lookup, hb, if_neg h]
    congr 1
    induction m with
    | nil => rfl
    | cons kv rest ih =>
      obtain ⟨a, b⟩ := kv
      by_cases hak : a = k
      · have hf : (a != k) = false := by simp [hak]
        have hsa : (s == a) = false := by rw [hak]; exact hb
        simp only [List.filter_cons, hf, List.lookup, hsa]
        exact ih
      · have hf : (a != k) = true := by simpa using hak
        simp only [List.filter_cons, hf, if_true, List.lookup]
        cases hsa : (s == a)
        · exact ih
        · rfl

theorem GoMap.index_foldl_set (ns : List String) (acc : GoMap Bool) (s : String) :
    GoMap.index false (ns.foldl (fun m nameSpace => GoMap.set m nameSpace true) acc) s = true ↔
      GoMap.index false acc s = true ∨ s ∈ ns := by
  induction ns generalizing acc with
  | nil => simp
  | cons n rest ih =>
    rw [List.foldl_cons, ih, GoMap.index_set]
    by_cases h : s = n
    · simp [h]
    · simp [h]

/-! ## Theorems -/

/-- C8: on the handler that `NewDockerHubWebhookHandler` builds from the namespaces `ns`,
`isValidNamespace s` is true exactly when `s` is an element of `ns`. -/
theorem isValidNamespace_iff_mem (D : Collaborators) (jenkins : D.Jenkins)
    (ns : List String) (s : String) :
    (NewDockerHubWebhookHandler D jenkins ns).isValidNamespace s = true ↔ s ∈ ns := by
  unfold DockerHubWebhookHandler.isValidNamespace NewDockerHubWebhookHandler
  simp only [GoMap.index_foldl_set]
  simp [GoMap.index, GoMap.make]

/-- C1: a POST request whose body parses and whose `repository.namespace` is not in the
allow-list of the handler is answered with status 401 and `TriggerJenkinsJob` is not called,
for every behaviour of the callback and of `TriggerJenkinsJob`. -/
theorem dockerhub_invalid_namespace_unauthorized (D : Collaborators)
    (d : DockerHubWebhookHandler D) (req : Request) (world world1 : D.World)
    (hookData : DockerHubWebhookData)
    (hmethod : req.Method = "POST")
    (hparse : D.NewDockerHubWebhookDataFromRequest req world = (Except.ok hookData, world1))
    (hns : d.isValidNamespace hookData.Repository.Namespace = false) :
    (d.ServeHTTP req (State.start D world)).w.status = 401 ∧
      triggerCalls (d.ServeHTTP req (State.start D world)).trace = [] := by
  simp [DockerHubWebhookHandler.ServeHTTP, hmethod, hparse, hns]

/-- Witness of C1: the namespace `acme` of the payload against the allow-list `evil`, with a
callback and a trigger that would both succeed. -/
theorem dockerhub_invalid_namespace_unauthorized_witness :
    ((NewDockerHubWebhookHandler allSucceed () ["evil"]).ServeHTTP (postRequest [] sampleBody)
        (State.start allSucceed (0 : Nat))).w.status = 401 ∧
      triggerCalls ((NewDockerHubWebhookHandler allSucceed () ["evil"]).ServeHTTP
        (postRequest [] sampleBody) (State.start allSucceed (0 : Nat))).trace = [] :=
  dockerhub_invalid_namespace_unauthorized allSucceed
    (NewDockerHubWebhookHandler allSucceed () ["evil"]) (postRequest [] sampleBody)
    (0 : Nat) (1 : Nat) acmePayload rfl rfl (by decide)

/-- C2: a POST request for which `Get("secret")` on the query parameters differs from
`PubSubSecret` is answered with status 401 and `TriggerJenkinsJob` is not called, whatever
the body and whatever the parser would make of it. -/
theorem gcr_secret_mismatch_unauthorized (D : Collaborators) (d : GcrWebhookHandler D)
    (req : Request) (world : D.World)
    (hmethod : req.Method = "POST")
    (hsecret : Values.Get req.URLQuery "secret" ≠ d.PubSubSecret) :
    (d.ServeHTTP req (State.start D world)).w.status = 401 ∧
      triggerCalls (d.ServeHTTP req (State.start D world)).trace = [] := by
  simp [GcrWebhookHandler.ServeHTTP, hmethod, hsecret]

/-- Witness of C2: the secret `guess` against the configured `s3cret`, with a payload that
would parse and be valid. -/
theorem gcr_secret_mismatch_unauthorized_witness :
    (GcrWebhookHandler.ServeHTTP (D := allSucceed) { Jenkins := (), PubSubSecret := "s3cret" }
        (postRequest [("secret", ["guess"])] sampleBody)
        (State.start allSucceed (0 : Nat))).w.status = 401 ∧
      triggerCalls (GcrWebhookHandler.ServeHTTP (D := allSucceed)
        { Jenkins := (), PubSubSecret := "s3cret" }
        (postRequest [("secret", ["guess"])] sampleBody)
        (State.start allSucceed (0 : Nat))).trace = [] :=
  gcr_secret_mismatch_unauthorized allSucceed { Jenkins := (), PubSubSecret := "s3cret" }
    (postRequest [("secret", ["guess"])] sampleBody) (0 : Nat) rfl (by decide)

/-- C3: a POST request whose body parses, whose `repository.namespace` is in the allow-list
and whose callback returns an error is answered with status 401 and `TriggerJenkinsJob` is
not called. -/
theorem dockerhub_callback_error_unauthorized (D : Collaborators)
    (d : DockerHubWebhookHandler D) (req : Request) (world world1 world2 : D.World)
    (hookData : DockerHubWebhookData) (err : GoError)
    (hmethod : req.Method = "POST")
    (hparse : D.NewDockerHubWebhookDataFromRequest req world = (Except.ok hookData, world1))
    (hns : d.isValidNamespace hookData.Repository.Namespace = true)
    (hcallback : D.Callback hookData D.NewSuccessCallbackData world1 = (some err, world2)) :
    (d.ServeHTTP req (State.start D world)).w.status = 401 ∧
      triggerCalls (d.ServeHTTP req (State.start D world)).trace = [] := by
  simp [DockerHubWebhookHandler.ServeHTTP, hmethod, hparse, hns, hcallback]

/-- Witness of C3: the namespace `acme` is allowed and the callback fails. -/
theorem dockerhub_callback_error_unauthorized_witness :
    ((NewDockerHubWebhookHandler callbackFails () ["acme"]).ServeHTTP
        (postRequest [] sampleBody) (State.start callbackFails (0 : Nat))).w.status = 401 ∧
      triggerCalls ((NewDockerHubWebhookHandler callbackFails () ["acme"]).ServeHTTP
        (postRequest [] sampleBody) (State.start callbackFails (0 : Nat))).trace = [] :=
  dockerhub_callback_error_unauthorized callbackFails
    (NewDockerHubWebhookHandler callbackFails () ["acme"]) (postRequest [] sampleBody)
    (0 : Nat) (1 : Nat) (2 : Nat) acmePayload { msg := "callback returned 404" }
    rfl rfl (by decide) rfl

/-- C4: both handlers answer a request whose method is not `POST` with status 400 and call
nothing: neither a parser, nor the callback, nor `TriggerJenkinsJob`. -/
theorem non_post_bad_request (D : Collaborators) (req : Request) (world : D.World)
    (hmethod : req.Method ≠ "POST") :
    (∀ d : DockerHubWebhookHandler D,
      (d.ServeHTTP req (State.start D world)).w.status = 400 ∧
        (d.ServeHTTP req (State.start D world)).trace = []) ∧
    (∀ d : GcrWebhookHandler D,
      (d.ServeHTTP req (State.start D world)).w.status = 400 ∧
        (d.ServeHTTP req (State.start D world)).trace = []) := by
  constructor <;> intro d <;>
    simp [DockerHubWebhookHandler.ServeHTTP, GcrWebhookHandler.ServeHTTP, hmethod]

/-- Witness of C4: a `GET` request carrying the right secret, to both handlers. -/
theorem non_post_bad_request_witness :
    ((NewDockerHubWebhookHandler allSucceed () ["acme"]).ServeHTTP
        { postRequest [("secret", ["s3cret"])] sampleBody with Method := "GET" }
        (State.start allSucceed (0 : Nat))).w.status = 400 ∧
      (GcrWebhookHandler.ServeHTTP (D := allSucceed)
        { Jenkins := (), PubSubSecret := "s3cret" }
        { postRequest [("secret", ["s3cret"])] sampleBody with Method := "GET" }
        (State.start allSucceed (0 : Nat))).w.status = 400 :=
  have h := non_post_bad_request allSucceed
    { postRequest [("secret", ["s3cret"])] sampleBody with Method := "GET" } (0 : Nat)
    (by decide)
  ⟨(h.1 (NewDockerHubWebhookHandler allSucceed () ["acme"])).1,
    (h.2 { Jenkins := (), PubSubSecret := "s3cret" }).1⟩

/-- Counterexample to C5 as stated: with the payload of the spec, the namespace `acme`
allowed and the callback succeeding, the response is 500 when `TriggerJenkinsJob` returns an
error (after its one call), and when `rawJSON` returns an error (`TriggerJenkinsJob` is then
not called at all). -/
theorem dockerhub_round_trip_counterexample :
    (postRequest [] sampleBody).Method = "POST" ∧
    triggerFails.NewDockerHubWebhookDataFromRequest (postRequest [] sampleBody) (0 : Nat) =
      (Except.ok acmePayload, (1 : Nat)) ∧
    (NewDockerHubWebhookHandler triggerFails () ["acme"]).isValidNamespace
      acmePayload.Repository.Namespace = true ∧
    triggerFails.Callback acmePayload triggerFails.NewSuccessCallbackData (1 : Nat) =
      (none, (2 : Nat)) ∧
    ((NewDockerHubWebhookHandler triggerFails () ["acme"]).ServeHTTP
      (postRequest [] sampleBody) (State.start triggerFails (0 : Nat))).w =
      { code := some 500, body := "Internal Service Error\n" } ∧
    triggerCalls ((NewDockerHubWebhookHandler triggerFails () ["acme"]).ServeHTTP
      (postRequest [] sampleBody) (State.start triggerFails (0 : Nat))).trace =
      [Event.TriggerJenkinsJob "dockerhub" "myapp" "acme" "v1.2.3" sampleBody
        (some { msg := "jenkins unreachable" })] ∧
    ((NewDockerHubWebhookHandler rawJSONFails () ["acme"]).ServeHTTP
      (postRequest [] sampleBody) (State.start rawJSONFails (0 : Nat))).w =
      { code := some 500, body := "Internal Service Error\n" } ∧
    triggerCalls ((NewDockerHubWebhookHandler rawJSONFails () ["acme"]).ServeHTTP
      (postRequest [] sampleBody) (State.start rawJSONFails (0 : Nat))).trace = [] :=
  ⟨rfl, rfl, by decide, rfl, by decide, by decide, by decide, by decide⟩

/-- C5, amended: for a POST request whose body parses, whose `repository.namespace` is in the
allow-list, whose callback succeeds and whose `rawJSON()` succeeds, returning the original
payload, `TriggerJenkinsJob` is called exactly once, with `"dockerhub"`, `repository.name`,
`repository.namespace`, `pushData.tag` and the original raw bytes of the request, in that
order; and when that call returns no error the response is status 200 with body `OK`. -/
theorem dockerhub_round_trip (D : Collaborators) (d : DockerHubWebhookHandler D)
    (req : Request) (world world1 world2 world3 world4 : D.World)
    (hookData : DockerHubWebhookData) (result : Option GoError)
    (hmethod : req.Method = "POST")
    (hparse : D.NewDockerHubWebhookDataFromRequest req world = (Except.ok hookData, world1))
    (hns : d.isValidNamespace hookData.Repository.Namespace = true)
    (hcallback : D.Callback hookData D.NewSuccessCallbackData world1 = (none, world2))
    (hraw : D.dockerHubRawJSON hookData world2 = (Except.ok (originalPayload req), world3))
    (htrigger : D.TriggerJenkinsJob d.Jenkins "dockerhub" hookData.Repository.Name
      hookData.Repository.Namespace hookData.PushData.Tag req.Body world3 = (result, world4)) :
    triggerCalls (d.ServeHTTP req (State.start D world)).trace =
        [Event.TriggerJenkinsJob "dockerhub" hookData.Repository.Name
          hookData.Repository.Namespace hookData.PushData.Tag req.Body result] ∧
      (result = none →
        (d.ServeHTTP req (State.start D world)).w.status = 200 ∧
          (d.ServeHTTP req (State.start D world)).w.body = "OK") := by
  unfold originalPayload at hraw
  cases result <;>
    simp [DockerHubWebhookHandler.ServeHTTP, hmethod, hparse, hns, hcallback, hraw, htrigger]

/-- Witness of C5: name `myapp`, namespace `acme`, tag `v1.2.3`, allow-list `acme`; the
trigger is given `sampleBody`, the body of the request. -/
theorem dockerhub_round_trip_witness :
    triggerCalls ((NewDockerHubWebhookHandler allSucceed () ["acme"]).ServeHTTP
        (postRequest [] sampleBody) (State.start allSucceed (0 : Nat))).trace =
        [Event.TriggerJenkinsJob "dockerhub" "myapp" "acme" "v1.2.3" sampleBody none] ∧
      ((NewDockerHubWebhookHandler allSucceed () ["acme"]).ServeHTTP
        (postRequest [] sampleBody) (State.start allSucceed (0 : Nat))).w.status = 200 ∧
      ((NewDockerHubWebhookHandler allSucceed () ["acme"]).ServeHTTP
        (postRequest [] sampleBody) (State.start allSucceed (0 : Nat))).w.body = "OK" :=
  have h := dockerhub_round_trip allSucceed (NewDockerHubWebhookHandler allSucceed () ["acme"])
    (postRequest [] sampleBody) (0 : Nat) (1 : Nat) (2 : Nat) (2 : Nat) (3 : Nat) acmePayload
    none rfl rfl (by decide) rfl rfl rfl
  ⟨h.1, h.2 rfl⟩

/-- Counterexample to C6 as stated: with a matching secret and a payload that parses and is
valid, the response is 500 when `TriggerJenkinsJob` returns an error (after its one call),
and when `rawJSON` returns an error (`TriggerJenkinsJob` is then not called at all). -/
theorem gcr_round_trip_counterexample :
    (postRequest [("secret", ["s3cret"])] sampleBody).Method = "POST" ∧
    Values.Get (postRequest [("secret", ["s3cret"])] sampleBody).URLQuery "secret" = "s3cret" ∧
    triggerFails.NewGcrWebhookDataFromRequest (postRequest [("secret", ["s3cret"])] sampleBody)
      (0 : Nat) = (Except.ok gcrPayload, (1 : Nat)) ∧
    triggerFails.isValid gcrPayload = true ∧
    (GcrWebhookHandler.ServeHTTP (D := triggerFails) { Jenkins := (), PubSubSecret := "s3cret" }
      (postRequest [("secret", ["s3cret"])] sampleBody)
      (State.start triggerFails (0 : Nat))).w =
      { code := some 500, body := "Internal Service Error\n" } ∧
    triggerCalls (GcrWebhookHandler.ServeHTTP (D := triggerFails)
      { Jenkins := (), PubSubSecret := "s3cret" }
      (postRequest [("secret", ["s3cret"])] sampleBody)
      (State.start triggerFails (0 : Nat))).trace =
      [Event.TriggerJenkinsJob "gcr" "my-image" "gcr.io/my-project" "latest" sampleBody
        (some { msg := "jenkins unreachable" })] ∧
    (GcrWebhookHandler.ServeHTTP (D := rawJSONFails) { Jenkins := (), PubSubSecret := "s3cret" }
      (postRequest [("secret", ["s3cret"])] sampleBody)
      (State.start rawJSONFails (0 : Nat))).w =
      { code := some 500, body := "Internal Service Error\n" } ∧
    triggerCalls (GcrWebhookHandler.ServeHTTP (D := rawJSONFails)
      { Jenkins := (), PubSubSecret := "s3cret" }
      (postRequest [("secret", ["s3cret"])] sampleBody)
      (State.start rawJSONFails (0 : Nat))).trace = [] :=
  ⟨rfl, by decide, rfl, rfl, by decide, by decide, by decide, by decide⟩

/-- C6, amended: for a POST request whose `secret` parameter matches `PubSubSecret`, whose
payload parses and is valid and whose `rawJSON()` succeeds, returning the original payload,
`TriggerJenkinsJob` is called exactly once, with `"gcr"`, the repository name, the repository
domain, the tag or digest and the raw payload bytes of the request, in that order; and when
that call returns no error the response is status 200 with body `OK`. -/
theorem gcr_round_trip (D : Collaborators) (d : GcrWebhookHandler D)
    (req : Request) (world world1 world2 world3 : D.World)
    (hookData : D.GcrWebhookData) (result : Option GoError)
    (hmethod : req.Method = "POST")
    (hsecret : Values.Get req.URLQuery "secret" = d.PubSubSecret)
    (hparse : D.NewGcrWebhookDataFromRequest req world = (Except.ok hookData, world1))
    (hvalid : D.isValid hookData = true)
    (hraw : D.gcrRawJSON hookData world1 = (Except.ok (originalPayload req), world2))
    (htrigger : D.TriggerJenkinsJob d.Jenkins "gcr" (D.getRepositoryName hookData)
      (D.getRepositoryDomain hookData) (D.getImageTagOrDigest hookData) req.Body world2 =
      (result, world3)) :
    triggerCalls (d.ServeHTTP req (State.start D world)).trace =
        [Event.TriggerJenkinsJob "gcr" (D.getRepositoryName hookData)
          (D.getRepositoryDomain hookData) (D.getImageTagOrDigest hookData) req.Body result] ∧
      (result = none →
        (d.ServeHTTP req (State.start D world)).w.status = 200 ∧
          (d.ServeHTTP req (State.start D world)).w.body = "OK") := by
  unfold originalPayload at hraw
  cases result <;>
    simp [GcrWebhookHandler.ServeHTTP, hmethod, hsecret, hparse, hvalid, hraw, htrigger]

/-- Witness of C6: the image `gcr.io/my-project/my-image` with tag `latest`; the trigger is
given `sampleBody`, the body of the request. -/
theorem gcr_round_trip_witness :
    triggerCalls (GcrWebhookHandler.ServeHTTP (D := allSucceed)
        { Jenkins := (), PubSubSecret := "s3cret" }
        (postRequest [("secret", ["s3cret"])] sampleBody)
        (State.start allSucceed (0 : Nat))).trace =
        [Event.TriggerJenkinsJob "gcr" "my-image" "gcr.io/my-project" "latest" sampleBody
          none] ∧
      (GcrWebhookHandler.ServeHTTP (D := allSucceed)
        { Jenkins := (), PubSubSecret := "s3cret" }
        (postRequest [("secret", ["s3cret"])] sampleBody)
        (State.start allSucceed (0 : Nat))).w.status = 200 ∧
      (GcrWebhookHandler.ServeHTTP (D := allSucceed)
        { Jenkins := (), PubSubSecret := "s3cret" }
        (postRequest [("secret", ["s3cret"])] sampleBody)
        (State.start allSucceed (0 : Nat))).w.body = "OK" :=
  have h := gcr_round_trip allSucceed { Jenkins := (), PubSubSecret := "s3cret" }
    (postRequest [("secret", ["s3cret"])] sampleBody) (0 : Nat) (1 : Nat) (1 : Nat) (2 : Nat)
    gcrPayload none rfl (by decide) rfl rfl rfl rfl
  ⟨h.1, h.2 rfl⟩

/-- Counterexample to C7 as stated: a POST request to the GCR handler whose body the parser
rejects, and which carries no `secret` parameter while the handler is configured with
`s3cret`, is answered with status 401, not 500; the parser is not called. -/
theorem malformed_payload_counterexample :
    (postRequest [] sampleBody).Method = "POST" ∧
    parseFails.NewGcrWebhookDataFromRequest (postRequest [] sampleBody) (0 : Nat) =
      (Except.error { msg := "unexpected end of JSON input" }, (1 : Nat)) ∧
    (GcrWebhookHandler.ServeHTTP (D := parseFails) { Jenkins := (), PubSubSecret := "s3cret" }
      (postRequest [] sampleBody) (State.start parseFails (0 : Nat))).w =
      { code := some 401, body := "Unauthorized\n" } ∧
    (GcrWebhookHandler.ServeHTTP (D := parseFails) { Jenkins := (), PubSubSecret := "s3cret" }
      (postRequest [] sampleBody) (State.start parseFails (0 : Nat))).trace =
      [Event.Printf "Received request with invalid secret" []] :=
  ⟨rfl, rfl, by decide, by decide⟩

/-- C7, amended: the DockerHub handler answers every POST request whose body its parser
rejects with status 500, and the GCR handler does so for every POST request whose `secret`
parameter matches `PubSubSecret` and whose body its parser rejects; in both cases
`TriggerJenkinsJob` is not called. -/
theorem malformed_payload_internal_error (D : Collaborators) (req : Request)
    (world world1 : D.World) (err : GoError) (hmethod : req.Method = "POST") :
    (∀ d : DockerHubWebhookHandler D,
      D.NewDockerHubWebhookDataFromRequest req world = (Except.error err, world1) →
      (d.ServeHTTP req (State.start D world)).w.status = 500 ∧
        triggerCalls (d.ServeHTTP req (State.start D world)).trace = []) ∧
    (∀ d : GcrWebhookHandler D,
      Values.Get req.URLQuery "secret" = d.PubSubSecret →
      D.NewGcrWebhookDataFromRequest req world = (Except.error err, world1) →
      (d.ServeHTTP req (State.start D world)).w.status = 500 ∧
        triggerCalls (d.ServeHTTP req (State.start D world)).trace = []) := by
  constructor
  · intro d hparse
    simp [DockerHubWebhookHandler.ServeHTTP, hmethod, hparse]
  · intro d hsecret hparse
    simp [GcrWebhookHandler.ServeHTTP, hmethod, hsecret, hparse]

/-- Witness of C7: a body both parsers reject, with the right secret for the GCR handler. -/
theorem malformed_payload_internal_error_witness :
    ((NewDockerHubWebhookHandler parseFails () ["acme"]).ServeHTTP
        (postRequest [("secret", ["s3cret"])] sampleBody)
        (State.start parseFails (0 : Nat))).w.status = 500 ∧
      (GcrWebhookHandler.ServeHTTP (D := parseFails)
        { Jenkins := (), PubSubSecret := "s3cret" }
        (postRequest [("secret", ["s3cret"])] sampleBody)
        (State.start parseFails (0 : Nat))).w.status = 500 :=
  have h := malformed_payload_internal_error parseFails
    (postRequest [("secret", ["s3cret"])] sampleBody) (0 : Nat) (1 : Nat)
    { msg := "unexpected end of JSON input" } rfl
  ⟨(h.1 (NewDockerHubWebhookHandler parseFails () ["acme"]) rfl).1,
    (h.2 { Jenkins := (), PubSubSecret := "s3cret" } (by decide) rfl).1⟩

/-- C9: in a run of either handler, `TriggerJenkinsJob` is called at most once, and whenever
a call of it returned an error the response status is 500. -/
theorem trigger_error_internal_error_no_retry (D : Collaborators) (req : Request)
    (world : D.World) :
    (∀ d : DockerHubWebhookHandler D,
      (triggerCalls (d.ServeHTTP req (State.start D world)).trace).length ≤ 1 ∧
        ∀ provider name scope tag raw err,
          Event.TriggerJenkinsJob provider name scope tag raw (some err) ∈
            (d.ServeHTTP req (State.start D world)).trace →
          (d.ServeHTTP req (State.start D world)).w.status = 500) ∧
    (∀ d : GcrWebhookHandler D,
      (triggerCalls (d.ServeHTTP req (State.start D world)).trace).length ≤ 1 ∧
        ∀ provider name scope tag raw err,
          Event.TriggerJenkinsJob provider name scope tag raw (some err) ∈
            (d.ServeHTTP req (State.start D world)).trace →
          (d.ServeHTTP req (State.start D world)).w.status = 500) := by
  constructor
  · intro d
    unfold DockerHubWebhookHandler.ServeHTTP
    by_cases hm : req.Method = "POST"
    · rcases hp : D.NewDockerHubWebhookDataFromRequest req world with ⟨r, w1⟩
      cases r with
      | error e => simp [hm, hp]
      | ok hookData =>
        by_cases hns : d.isValidNamespace hookData.Repository.Namespace = true
        · rcases hc : D.Callback hookData D.NewSuccessCallbackData w1 with ⟨c, w2⟩
          cases c with
          | some e => simp [hm, hp, hns, hc]
          | none =>
            rcases hr : D.dockerHubRawJSON hookData w2 with ⟨j, w3⟩
            cases j with
            | error e => simp [hm, hp, hns, hc, hr]
            | ok rawJSON =>
              rcases ht : D.TriggerJenkinsJob d.Jenkins "dockerhub" hookData.Repository.Name
                hookData.Repository.Namespace hookData.PushData.Tag rawJSON w3 with ⟨t, w4⟩
              cases t <;> simp [hm, hp, hns, hc, hr, ht]
        · simp [hm, hp, hns]
    · simp [hm]
  · intro d
    unfold GcrWebhookHandler.ServeHTTP
    by_cases hm : req.Method = "POST"
    · by_cases hs : Values.Get req.URLQuery "secret" = d.PubSubSecret
      · rcases hp : D.NewGcrWebhookDataFromRequest req world with ⟨r, w1⟩
        cases r with
        | error e => simp [hm, hs, hp]
        | ok hookData =>
          by_cases hv : D.isValid hookData = true
          · rcases hr : D.gcrRawJSON hookData w1 with ⟨j, w2⟩
            cases j with
            | error e => simp [hm, hs, hp, hv, hr]
            | ok rawJSON =>
              rcases ht : D.TriggerJenkinsJob d.Jenkins "gcr" (D.getRepositoryName hookData)
                (D.getRepositoryDomain hookData) (D.getImageTagOrDigest hookData) rawJSON w2
                with ⟨t, w3⟩
              cases t <;> simp [hm, hs, hp, hv, hr, ht]
          · simp [hm, hs, hp, hv]
      · simp [hm, hs]
    · simp [hm]

/-- Witness of C9: `TriggerJenkinsJob` fails in a run of each handler, and both respond with
status 500. -/
theorem trigger_error_internal_error_no_retry_witness :
    ((NewDockerHubWebhookHandler triggerFails () ["acme"]).ServeHTTP
        (postRequest [("secret", ["s3cret"])] sampleBody)
        (State.start triggerFails (0 : Nat))).w.status = 500 ∧
      (GcrWebhookHandler.ServeHTTP (D := triggerFails)
        { Jenkins := (), PubSubSecret := "s3cret" }
        (postRequest [("secret", ["s3cret"])] sampleBody)
        (State.start triggerFails (0 : Nat))).w.status = 500 :=
  have h := trigger_error_internal_error_no_retry triggerFails
    (postRequest [("secret", ["s3cret"])] sampleBody) (0 : Nat)
  ⟨(h.1 (NewDockerHubWebhookHandler triggerFails () ["acme"])).2 "dockerhub" "myapp" "acme"
      "v1.2.3" sampleBody { msg := "jenkins unreachable" } (by decide),
    (h.2 { Jenkins := (), PubSubSecret := "s3cret" }).2 "gcr" "my-image" "gcr.io/my-project"
      "latest" sampleBody { msg := "jenkins unreachable" } (by decide)⟩

/-- Counterexample to C10 as stated: the handler with the empty `PubSubSecret` accepts a POST
request that carries no `secret` parameter: it calls `TriggerJenkinsJob` and responds with
status 200. -/
theorem gcr_secret_required_counterexample :
    (postRequest [] sampleBody).Method = "POST" ∧
    Values.Has (postRequest [] sampleBody).URLQuery "secret" = false ∧
    (GcrWebhookHandler.ServeHTTP (D := allSucceed) { Jenkins := (), PubSubSecret := "" }
      (postRequest [] sampleBody) (State.start allSucceed (0 : Nat))).w =
      { code := some 200, body := "OK" } ∧
    triggerCalls (GcrWebhookHandler.ServeHTTP (D := allSucceed)
      { Jenkins := (), PubSubSecret := "" }
      (postRequest [] sampleBody) (State.start allSucceed (0 : Nat))).trace =
      [Event.TriggerJenkinsJob "gcr" "my-image" "gcr.io/my-project" "latest" sampleBody
        none] :=
  ⟨rfl, rfl, by decide, by decide⟩

/-- C10, amended: a handler whose `PubSubSecret` is not the empty string answers every POST
request that carries no `secret` parameter with status 401, and `TriggerJenkinsJob` is not
called. -/
theorem gcr_secret_required (D : Collaborators) (d : GcrWebhookHandler D) (req : Request)
    (world : D.World)
    (hmethod : req.Method = "POST")
    (habsent : Values.Has req.URLQuery "secret" = false)
    (hconfigured : d.PubSubSecret ≠ "") :
    (d.ServeHTTP req (State.start D world)).w.status = 401 ∧
      triggerCalls (d.ServeHTTP req (State.start D world)).trace = [] := by
  have hget : Values.Get req.URLQuery "secret" = "" := by
    unfold Values.Has at habsent
    unfold Values.Get GoMap.index
    cases hl : List.lookup "secret" req.URLQuery with
    | none => rfl
    | some v => rw [hl] at habsent; cases habsent
  have hne : ¬ ("" = d.PubSubSecret) := fun h => hconfigured h.symm
  simp [GcrWebhookHandler.ServeHTTP, hmethod, hget, hne]

/-- Witness of C10: no query parameter at all, against the configured `s3cret`. -/
theorem gcr_secret_required_witness :
    (GcrWebhookHandler.ServeHTTP (D := allSucceed) { Jenkins := (), PubSubSecret := "s3cret" }
        (postRequest [] sampleBody) (State.start allSucceed (0 : Nat))).w.status = 401 ∧
      triggerCalls (GcrWebhookHandler.ServeHTTP (D := allSucceed)
        { Jenkins := (), PubSubSecret := "s3cret" }
        (postRequest [] sampleBody) (State.start allSucceed (0 : Nat))).trace = [] :=
  gcr_secret_required allSucceed { Jenkins := (), PubSubSecret := "s3cret" }
    (postRequest [] sampleBody) (0 : Nat) rfl rfl (by decide)

end ProxyService
